import Mathlib

/-!
Shallow embedding of the VSS (Vehicle Signal Specification) resolver
(`src/vss/__init__.py`) in Lean 4, together with theorems settling the
specification claims.

Modelling conventions:
* Python exceptions become an explicit `PyErr` sum returned through `Except`.
  `VSSSpecError` / `VSSBranchError` are distinct constructors; `ValueError`,
  `TypeError`, `NameError`, `IndexError` and failed `assert`s are modelled
  likewise.
* Python numeric scalars (`int` and `float`) are modelled as exact rationals
  `Rat`; comparisons between Python ints and floats are mathematically exact,
  `int(x)` is truncation toward zero, and `float(x)` is modelled as the
  identity (the exact-rational idealization of IEEE doubles; all concrete
  values used in theorems are exactly representable).
* The pint unit registry is an external collaborator (spec section 6); it is
  modelled by its interface only: a partial function from unit strings to the
  `dimensionless` predicate of the parsed unit (`none` = parse failure).
* Python dicts forming the tree are heap objects: the heap is a list of
  `NodeH` records and child references are indices, so that the frame
  property (the resolver never mutates the tree, it only allocates a fresh
  stripped mapping) is expressible.
-/

namespace VSS

/-- Python exception kinds surfaced by the VSS code. `specError` is
`VSSSpecError`, `branchError` is `VSSBranchError` (a `KeyError` subclass). -/
inductive PyErr where
  | valueError (msg : String)
  | typeError (msg : String)
  | specError (msg : String)
  | branchError (msg : String)
  | nameError (msg : String)
  | indexError (msg : String)
  | assertionError (msg : String)
deriving DecidableEq

/-- A Python scalar value, as stored in a signal's `default` field.
`pbool` is kept separate although Python's `bool` is a subclass of `int`;
`isPyInt` below reflects the subclass relation. -/
inductive PyVal where
  | pint (n : Int)
  | pfloat (q : Rat)
  | pbool (b : Bool)
  | pstr (s : String)
deriving DecidableEq

/-- `isinstance(v, float)` in Python (a `bool` is not a `float`). -/
def isPyFloat : PyVal → Bool
  | .pfloat _ => true
  | _ => false

/-- `isinstance(v, int)` in Python; `bool` is a subclass of `int`, so
`pbool` values satisfy it. -/
def isPyInt : PyVal → Bool
  | .pint _ => true
  | .pbool _ => true
  | _ => false

/-- `isinstance(v, bool)` in Python. -/
def isPyBool : PyVal → Bool
  | .pbool _ => true
  | _ => false

/-- `isinstance(v, str)` in Python. -/
def isPyStr : PyVal → Bool
  | .pstr _ => true
  | _ => false

/-- Numeric value of a Python scalar (`True == 1`, `False == 0`). The
`pstr` case is never reached by the code paths that call this (a string
default with a string datatype hits the `clamp` ValueError first). -/
def pyNumVal : PyVal → Rat
  | .pint n => (n : Rat)
  | .pfloat q => q
  | .pbool b => if b then 1 else 0
  | .pstr _ => 0

/-- Python `repr` of a short string (single quotes; escaping of quote
characters inside the string is not modelled, no theorem relies on it). -/
def sq (s : String) : String := "'" ++ s ++ "'"

/-- Python `repr` of a list of strings, e.g. `['Row1', 'Row2']`. -/
def listRepr (l : List String) : String :=
  "[" ++ String.intercalate ", " (l.map sq) ++ "]"

/-- `'.'.join(l)` in Python. -/
def dotJoin (l : List String) : String := String.intercalate "." l

/-- Python substring test `pat in s`. -/
def strContains (s pat : String) : Bool :=
  (List.range (s.data.length + 1)).any (fun i => pat.data.isPrefixOf (s.data.drop i))

/-- Python `str.lower()`, character by character (the datatype strings are
ASCII). Defined structurally so that concrete evaluations reduce. -/
def pyLower (s : String) : String := String.mk (s.data.map Char.toLower)

/-- Python `str.split('.')`: always returns at least one (possibly empty)
segment; defined on character lists. -/
def splitDotsAux : List Char → List (List Char)
  | [] => [[]]
  | c :: rest =>
    let r := splitDotsAux rest
    if c = '.' then [] :: r
    else
      match r with
      | x :: xs => (c :: x) :: xs
      | [] => [[c]]

/-- Python `s.split('.')`. -/
def pySplit (s : String) : List String :=
  (splitDotsAux s.data).map fun cs => String.mk cs

/-- Python `int(x)` on a numeric value: truncation toward zero. -/
def ratTrunc (q : Rat) : Rat := if 0 ≤ q then (⌊q⌋ : Rat) else (⌈q⌉ : Rat)

/-- `INT_BOUNDS` table from the source, as exact rationals, in source
order. Bounds are spelled as plain literals (`2 ^ w - 1` etc. evaluated)
because `Rat` arithmetic is irreducible while literals reduce. -/
def INT_BOUNDS : List (String × (Rat × Rat)) :=
  [("uint8", (0, 255)),
   ("int8", (-128, 127)),
   ("uint16", (0, 65535)),
   ("int16", (-32768, 32767)),
   ("uint32", (0, 4294967295)),
   ("int32", (-2147483648, 2147483647)),
   ("uint64", (0, 18446744073709551615)),
   ("int64", (-9223372036854775808, 9223372036854775807))]

/-- `FLOAT_BOUNDS`: the extreme finite IEEE single-precision values,
`±(2 - 2^-23)·2^127 = ±(2^128 - 2^104)`, exactly as integer literals. -/
def FLOAT_BOUNDS : Rat × Rat :=
  (-340282346638528859811704183484516925440, 340282346638528859811704183484516925440)

/-- `DOUBLE_BOUNDS`: the extreme finite IEEE double-precision values,
`±(2 - 2^-52)·2^1023 = ±(2^1024 - 2^971)`, exactly as integer literals. -/
def DOUBLE_BOUNDS : Rat × Rat :=
  (-179769313486231570814527423731704356798070567525844996598917476803157260780028538760589558632766878171540458953514382464234321326889464182768467546703537516986049910576551282076245490090389328944075868508455133942304583236903222948165808559332123348274797826204144723168738177180919299881250404026184124858368,
   179769313486231570814527423731704356798070567525844996598917476803157260780028538760589558632766878171540458953514382464234321326889464182768467546703537516986049910576551282076245490090389328944075868508455133942304583236903222948165808559332123348274797826204144723168738177180919299881250404026184124858368)

/-- Natural representable range of a numeric datatype, mirroring the
dispatch in `Signal.__post_init__` lines 101-111: substring test `'int' in
datatype` first, then `float`, then `double`, otherwise `ValueError`. -/
def naturalBounds (dt : String) : Except PyErr (Rat × Rat) :=
  if strContains dt "int" then
    match List.lookup dt INT_BOUNDS with
    | some p => .ok p
    | none => .error (.valueError ("unrecognized datatype " ++ dt))
  else if dt = "float" then .ok FLOAT_BOUNDS
  else if dt = "double" then .ok DOUBLE_BOUNDS
  else .error (.valueError ("unrecognized datatype " ++ dt))

/-- Lines 99-120 of `__post_init__`: for numeric datatypes the stored
bounds are `max(author_min, low)` and `min(author_max, high)`; for
`string`/`boolean` the author values are left untouched. -/
def deriveBounds (dt : String) (mnA mxA : Option Rat) :
    Except PyErr (Option Rat × Option Rat) :=
  if dt = "string" ∨ dt = "boolean" then .ok (mnA, mxA)
  else
    match naturalBounds dt with
    | .error e => .error e
    | .ok (low, high) =>
      .ok (some (match mnA with | none => low | some m => max m low),
           some (match mxA with | none => high | some M => min M high))

/-- Conversion applied by `Signal.clamp`: `float(...)` (identity in the
exact-rational model) for `float`/`double`, otherwise `int(...)`
(truncation toward zero). -/
def pyConv (dt : String) (q : Rat) : Rat :=
  if dt = "float" ∨ dt = "double" then q else ratTrunc q

/-- `Signal.clamp` (lines 79-84): rejects non-numeric datatypes, otherwise
returns `type_(max(min(value, self.max), self.min))`. A `None` bound would
raise a `TypeError` in Python's comparison (unreachable for constructed
numeric signals). -/
def clampVal (dt : String) (mn mx : Option Rat) (value : Rat) : Except PyErr Rat :=
  if dt = "string" ∨ dt = "boolean" then
    .error (.valueError ("cannot clamp numeric value to non-numeric datatype " ++ dt))
  else
    match mx, mn with
    | some M, some m => .ok (pyConv dt (max (min value M) m))
    | _, _ => .error (.typeError "comparison between numeric value and None")

/-- Python `repr` of the runtime class of a scalar, as interpolated into
the default-mismatch error message. -/
def pyTypeRepr : PyVal → String
  | .pint _ => "<class 'int'>"
  | .pfloat _ => "<class 'float'>"
  | .pbool _ => "<class 'bool'>"
  | .pstr _ => "<class 'str'>"

/-- Python `str()` of a scalar (float values rendered via their exact
rational; no theorem relies on the float rendering). -/
def pyStr : PyVal → String
  | .pint n => toString n
  | .pfloat q => toString q
  | .pbool b => cond b "True" "False"
  | .pstr s => s

/-- The closed `Datatype` literal set, in source order. -/
def datatypeSet : List String :=
  ["double", "float", "int16", "int32", "int64", "int8",
   "uint16", "uint32", "uint64", "uint8", "boolean", "string"]

/-- The resolved, immutable signal entity. `pintDimensionless` models the
`pint_unit` field through the only predicate the code consults on it. -/
structure Signal where
  datatype : String
  description : String
  /-- the source's `namespace` field (`namespace` is a Lean keyword) -/
  nspace : List String
  pintDimensionless : Bool
  type : String
  uuid : String
  default : Option PyVal := none
  enum : Option (List String) := none
  max : Option Rat := none
  min : Option Rat := none
  unit : String := "dimensionless"
deriving DecidableEq

/-- `Signal.clamp` as a method. -/
def Signal.clamp (s : Signal) (value : Rat) : Except PyErr Rat :=
  clampVal s.datatype s.min s.max value

/-- The unit-registry collaborator: maps a unit string to the parsed
unit's `dimensionless` flag, or `none` on parse failure. -/
def UnitReg : Type := String → Option Bool

/-- A registry accepting the units used in this development. -/
def defaultReg : UnitReg := fun u =>
  if u = "dimensionless" then some true
  else if u = "percent" then some true
  else if u = "km/h" then some false
  else none

/-- Lines 122-132 of `__post_init__`: the default value's runtime class
must agree with the datatype (Python's `bool` being a subclass of `int`,
the second clause fires for booleans too), and `clamp(default)` must return
it unchanged. -/
def checkDefault (dt : String) (mn mx : Option Rat) (df : Option PyVal) :
    Except PyErr Unit :=
  match df with
  | none => Except.ok ()
  | some v =>
    if (isPyFloat v ∧ dt ≠ "float" ∧ dt ≠ "double")
        ∨ (isPyInt v ∧ ¬ strContains dt "int")
        ∨ (isPyBool v ∧ dt ≠ "boolean")
        ∨ (isPyStr v ∧ dt ≠ "string") then
      .error (.valueError ("default value type " ++ pyTypeRepr v ++
        " does not match expected datatype " ++ dt))
    else
      match clampVal dt mn mx (pyNumVal v) with
      | .error e => Except.error e
      | .ok c =>
        if c ≠ pyNumVal v then
          .error (.valueError ("default value " ++ pyStr v ++
            " is illegal for datatype " ++ dt))
        else Except.ok ()

/-- `Signal.__post_init__` (lines 86-164), after the dataclass has bound the
keyword arguments: datatype lower-casing, enum/datatype coupling, bounds
derivation, default validation, unit parsing, unit/datatype coupling,
namespace validation, and the final `check_type` pass (of which only the
`datatype` and `type` literal checks can fail on well-typed field values). -/
def postInit (reg : UnitReg) (dt0 desc ty uu : String) (df : Option PyVal)
    (en : Option (List String)) (mxA mnA : Option Rat) (un : String)
    (ns : List String) : Except PyErr Signal :=
  let dt := pyLower dt0
  if en.isSome ∧ dt ≠ "string" then
    .error (.valueError ("enum provided for non-string datatype " ++ dt))
  else
    match deriveBounds dt mnA mxA with
    | .error e => .error e
    | .ok (mn, mx) =>
      match checkDefault dt mn mx df with
      | .error e => .error e
      | .ok _ =>
        match reg un with
        | none => .error (.valueError ("illegal unit " ++ sq un))
        | some dimless =>
          if (dt = "string" ∨ dt = "boolean") ∧ ¬ dimless then
            .error (.valueError ("datatype " ++ dt ++ " is not compatible with unit"))
          else if ns.length = 0 then
            .error (.valueError "namespace must contain at least one key")
          else if ns.any (fun k => k.length = 0) then
            .error (.valueError "namespace cannot contain an empty key")
          else if ¬ datatypeSet.contains dt then
            .error (.typeError ("type of datatype must be a Datatype literal, got " ++ dt))
          else if ¬ (["sensor", "attribute", "actuator"].contains ty) then
            .error (.typeError ("type of type must be a literal, got " ++ ty))
          else
            .ok { datatype := dt, description := desc, nspace := ns,
                  pintDimensionless := dimless, type := ty, uuid := uu,
                  default := df, enum := en, max := mx, min := mn, unit := un }

/-- The instance-specification type `Instances = Union[str, List[Union[str,
List[str]]]]` — an element of the outer list. -/
inductive InstElem where
  | str (s : String)
  | list (l : List String)
deriving DecidableEq

/-- The instance-specification type: a range/flat string or an outer list. -/
inductive InstSpec where
  | str (s : String)
  | list (l : List InstElem)
deriving DecidableEq

def InstElem.isStr : InstElem → Bool
  | .str _ => true
  | _ => false

def InstElem.isList : InstElem → Bool
  | .list _ => true
  | _ => false

def InstElem.getStr : InstElem → Option String
  | .str s => some s
  | _ => none

def InstElem.getList : InstElem → Option (List String)
  | .list l => some l
  | _ => none

/-- Python `repr` of an intermediate instances list whose elements are
strings or lists of strings. -/
def elemRepr : InstElem → String
  | .str s => sq s
  | .list l => listRepr l

def mixedRepr (l : List InstElem) : String :=
  "[" ++ String.intercalate ", " (l.map elemRepr) ++ "]"

/-- Digit-string to number, as Python `int()` on a `\d+` match. -/
def natOfDigits (l : List Char) : Nat :=
  l.foldl (fun a c => a * 10 + (c.toNat - 48)) 0

/-- Deterministic equivalent of `re.fullmatch(r'(.*)\[(\d+),(\d+)\]', s)`:
scanning from the right, the string must end in `]`, preceded by a nonempty
digit run, a comma, another nonempty digit run and `[`; the greedy `(.*)`
group is everything before that last bracketed pair. -/
def parseRange (s : String) : Option (String × Nat × Nat) :=
  match s.data.reverse with
  | ']' :: rest =>
    let d2r := rest.takeWhile Char.isDigit
    if d2r = [] then none
    else
      match rest.drop d2r.length with
      | ',' :: rest2 =>
        let d1r := rest2.takeWhile Char.isDigit
        if d1r = [] then none
        else
          match rest2.drop d1r.length with
          | '[' :: stemRev =>
            some (String.mk stemRev.reverse, natOfDigits d1r.reverse, natOfDigits d2r.reverse)
          | _ => none
      | _ => none
  | _ => none

/-- `_expand_instances` (lines 170-188): expand the condensed range format
`Stem[lower,upper]` into `[Stem+i for i in range(lower, upper+1)]`;
malformed strings and empty ranges (`upper <= lower`) are spec errors. -/
def expandInstances (s : String) (ns : List String) (idx : Nat) :
    Except PyErr (List String) :=
  if idx ≤ ns.length then
    match parseRange s with
    | none =>
      .error (.specError ("malformed instance " ++ sq s ++ " on " ++
        sq (dotJoin (ns.take idx))))
    | some (stem, lo, hi) =>
      if hi ≤ lo then
        .error (.specError ("empty range [" ++ toString lo ++ "," ++ toString hi ++
          "] on instance " ++ sq stem ++ " for " ++ sq (dotJoin (ns.take idx))))
      else
        .ok ((List.range' lo (hi + 1 - lo)).map fun i => stem ++ toString i)
  else .error (.assertionError "illegal index")

/-- `_consume_instance` (lines 191-205): `namespace[idx]` must exist (else
a branch error built from the element before it — Python's `namespace[idx-1]`,
which is the *last* element when `idx == 0` by negative indexing) and must be
one of the expanded instance names. -/
def consumeInstance (insts : List String) (ns : List String) (idx : Nat) :
    Except PyErr Nat :=
  if idx ≤ ns.length then
    match ns.get? idx with
    | some name =>
      if insts.contains name then .ok (idx + 1)
      else
        .error (.branchError ("illegal instance of " ++ sq (dotJoin (ns.take idx)) ++
          ", got " ++ sq name ++ " but must be one of " ++ listRepr insts))
    | none =>
      match (if idx = 0 then ns.getLast? else ns.get? (idx - 1)) with
      | some prev =>
        .error (.branchError ("node " ++ sq (dotJoin (ns.take idx)) ++
          " has instances, expected one of " ++ listRepr insts ++ " after " ++ prev))
      | none => .error (.indexError "tuple index out of range")
  else .error (.assertionError "illegal index")

/-- The comprehension at line 219: each top-level string element is
range-expanded (to a list), list elements are kept; the first expansion
failure aborts the whole comprehension. -/
def expandList (l : List InstElem) (ns : List String) (idx : Nat) :
    Except PyErr (List InstElem) :=
  match l with
  | [] => .ok []
  | .str s :: rest =>
    match expandInstances s ns idx with
    | .error e => .error e
    | .ok names =>
      match expandList rest ns idx with
      | .error e => .error e
      | .ok rest' => .ok (.list names :: rest')
  | .list il :: rest =>
    match expandList rest ns idx with
    | .error e => .error e
    | .ok rest' => .ok (.list il :: rest')

/-- The all-lists loop of `_parse_instances` (lines 227-238): each axis is
consumed against one successive namespace segment. (The inner
"illegal nested instance" check is vacuous here because the `Instances`
type, enforced by `typechecked`, makes inner elements strings.) -/
def consumeAxes (axes : List (List String)) (ns : List String) (idx : Nat) :
    Except PyErr Nat :=
  match axes with
  | [] => .ok idx
  | ax :: rest =>
    match consumeInstance ax ns idx with
    | .error e => .error e
    | .ok j => consumeAxes rest ns j

/-- `_parse_instances` (lines 208-241). A single string is range-expanded;
an empty list is a spec error; then the comprehension re-expands string
elements (falling back to the pre-comprehension list if any expansion
fails — the `except VSSSpecError: pass`, and expansion can only fail with a
spec error when `idx ≤ len(ns)`); finally all-strings lists are consumed as
one segment, all-lists lists axis by axis, and mixed lists are malformed. -/
def parseInstances (inst : InstSpec) (ns : List String) (idx : Nat) :
    Except PyErr Nat :=
  if idx ≤ ns.length then
    match (match inst with
           | .str s => (expandInstances s ns idx).map (List.map InstElem.str)
           | .list l =>
             if l = [] then
               .error (.specError ("empty instances array on " ++
                 sq (dotJoin (ns.take idx))))
             else Except.ok l) with
    | .error e => .error e
    | .ok l =>
      let l2 := match expandList l ns idx with
                | .ok l' => l'
                | .error _ => l
      if l2.all InstElem.isStr then
        consumeInstance (l2.filterMap InstElem.getStr) ns idx
      else if l2.all InstElem.isList then
        consumeAxes (l2.filterMap InstElem.getList) ns idx
      else
        .error (.specError ("malformed instances " ++ mixedRepr l2 ++ " for " ++
          sq (dotJoin (ns.take idx))))
  else .error (.assertionError "illegal index")

/-- A value appearing under a key of a `children` mapping (or of the
top-level tree): either a reference to a dict node on the heap, or some
non-mapping JSON value, into which the `typechecked` decorator of
`_find_signal` refuses to recurse with a `TypeError`. -/
inductive HChild where
  | ref (a : Nat)
  | nonMap
deriving DecidableEq

/-- A tree-node dict, by its known keys. `none` models an absent key.
Unknown extra keys (which would make `Signal(**branch)` fail with a
`TypeError` just like a present `children`/`instances` key does) are not
modelled. -/
structure NodeH where
  instancesF : Option InstSpec := none
  typeF : Option String := none
  children : Option (List (String × HChild)) := none
  datatype : Option String := none
  description : Option String := none
  uuid : Option String := none
  default : Option PyVal := none
  enum : Option (List String) := none
  maxF : Option Rat := none
  minF : Option Rat := none
  unitF : Option String := none
deriving DecidableEq

/-- The dict heap: nodes addressed by list index. Resolution may allocate
(append) fresh dicts but never updates an existing address. -/
abbrev Heap : Type := List NodeH

/-- `Signal(namespace=ns, reg=reg, **branch)` (line 269): keyword binding
(`instances`/`children` keys are unexpected keyword arguments, missing
required fields are missing arguments — both `TypeError`), then
`__post_init__`. A missing `unit` key takes the dataclass default
`'dimensionless'`. -/
def mkSignal (reg : UnitReg) (nd : NodeH) (ns : List String) : Except PyErr Signal :=
  if nd.instancesF.isSome then
    .error (.typeError "unexpected keyword argument instances")
  else if nd.children.isSome then
    .error (.typeError "unexpected keyword argument children")
  else
    match nd.datatype, nd.description, nd.typeF, nd.uuid with
    | some dt0, some desc, some ty, some uu =>
      postInit reg dt0 desc ty uu nd.default nd.enum nd.maxF nd.minF
        (nd.unitF.getD "dimensionless") ns
    | _, _, _, _ => .error (.typeError "missing required argument")

/-- Lines 248-254 of `_find_signal`: run the Instance Matcher when the
node declares `instances`, otherwise keep the index. -/
def instStep (nd : NodeH) (ns : List String) (idx : Nat) : Except PyErr Nat :=
  match nd.instancesF with
  | none => .ok idx
  | some inst => parseInstances inst ns idx

/-- `_find_signal` (lines 245-288) over the dict heap. `fuel` is an
embedding artifact bounding the recursion depth; the wrapper passes
`ns.length + 1`, which can never be exhausted because every recursive call
strictly increases `idx` (each level consumes at least one namespace
segment) while `idx ≤ ns.length` is enforced. Returns the result together
with the heap, which grows only by the freshly allocated stripped dict of
line 266. -/
def findSignalAux (reg : UnitReg) (h : Heap) (fuel : Nat) (a : Nat)
    (ns : List String) (idx : Nat) : Except PyErr Signal × Heap :=
  match fuel with
  | 0 => (.error (.assertionError "recursion fuel exhausted"), h)
  | fuel' + 1 =>
    if idx ≤ ns.length then
      match h.get? a with
      | none => (.error (.typeError "argument branch must be a dict"), h)
      | some nd =>
        match instStep nd ns idx with
        | .error e => (.error e, h)
        | .ok j =>
          if j = ns.length then
            if nd.typeF.getD "branch" = "branch" then
              (.error (.branchError ("node " ++ sq (dotJoin (ns.take j)) ++
                " is a branch, not a signal")), h)
            else
              -- line 266: build a fresh mapping without the instances key
              let nd' := if nd.instancesF.isSome then { nd with instancesF := none } else nd
              let h' := if nd.instancesF.isSome then h ++ [nd'] else h
              match mkSignal reg nd' ns with
              | .ok s => (.ok s, h')
              | .error (.valueError _) =>
                (.error (.specError ("malformed sensor specification for " ++
                  sq (dotJoin (ns.take j)))), h')
              | .error (.typeError _) =>
                (.error (.specError ("malformed sensor specification for " ++
                  sq (dotJoin (ns.take j)))), h')
              | .error e => (.error e, h')
          else
            match nd.children with
            | none =>
              (.error (.branchError ("attempted to follow branch " ++
                sq (dotJoin (ns.drop j)) ++ " from leaf node " ++
                sq (dotJoin (ns.take j)))), h)
            | some cs =>
              match ns.get? j with
              | none => (.error (.indexError "tuple index out of range"), h)
              | some seg =>
                match List.lookup seg cs with
                | none =>
                  (.error (.branchError ("branch " ++ sq (dotJoin (ns.take j)) ++
                    " has no such child " ++ sq seg)), h)
                | some .nonMap => (.error (.typeError "argument branch must be a dict"), h)
                | some (.ref a') => findSignalAux reg h fuel' a' ns (j + 1)
    else (.error (.assertionError "illegal index"), h)

/-- The `name` argument of `find_signal`: a dot-delimited string or a tuple
of segments. -/
inductive NameArg where
  | str (s : String)
  | tup (l : List String)
deriving DecidableEq

/-- Python `len(name)`: character count for a string, arity for a tuple. -/
def nameLen : NameArg → Nat
  | .str s => s.data.length
  | .tup l => l.length

/-- The namespace tuple after line 312: a string name is split on `'.'`. -/
def nsOf : NameArg → List String
  | .str s => pySplit s
  | .tup l => l

/-- `find_signal` (lines 292-332) with an explicitly supplied tree (the
`spec is None` path loads a packaged JSON file — external I/O, out of
scope). The final `except TypeError: raise VSSSpecError(...) from e`
references `e`, which is unbound on every path that reaches it (Python 3
unbinds an `except ... as e` name when its block exits), so a `TypeError`
escaping the descent surfaces as a `NameError`, not a spec error. -/
def findSignal (reg : UnitReg) (nameA : NameArg)
    (spec : List (String × HChild)) (h : Heap) : Except PyErr Signal × Heap :=
  if nameLen nameA = 0 then
    (.error (.valueError "namespace must contain at least one key"), h)
  else
    let ns := nsOf nameA
    if ns.any (fun k => k.length = 0) then
      (.error (.valueError "namespace cannot contain an empty key"), h)
    else
      match ns.head? with
      | none => (.error (.valueError "namespace must contain at least one key"), h)
      | some key =>
        match List.lookup key spec with
        | none => (.error (.branchError ("no such domain " ++ sq key)), h)
        | some .nonMap =>
          -- typeguard rejects the non-dict branch argument with a TypeError,
          -- whose handler at line 332 evaluates the unbound name `e`
          (.error (.nameError "name e is not defined"), h)
        | some (.ref a) =>
          match findSignalAux reg h (ns.length + 1) a ns 1 with
          | (.error (.typeError _), h') => (.error (.nameError "name e is not defined"), h')
          | r => r

/-! ### Concrete nodes, heaps and signals used in closed theorems -/

/-- A well-formed `int32` leaf node (the `Vehicle.AverageSpeed` shape). -/
def speedLeaf : NodeH :=
  { typeF := some "sensor", datatype := some "int32", description := some "speed",
    uuid := some "u1", minF := some (-250), maxF := some 250, unitF := some "km/h" }

/-- A branch node with the single child `AverageSpeed` at heap address 1. -/
def vehicleBranch : NodeH := { children := some [("AverageSpeed", .ref 1)] }

/-- Two-node heap: branch at address 0, leaf at address 1. -/
def speedHeap : Heap := [vehicleBranch, speedLeaf]

/-- Top-level tree with the single domain `Vehicle`. -/
def speedSpec : List (String × HChild) := [("Vehicle", .ref 0)]

/-- The signal resolved from `speedHeap`. -/
def speedSignal : Signal :=
  { datatype := "int32", description := "speed", nspace := ["Vehicle", "AverageSpeed"],
    pintDimensionless := false, type := "sensor", uuid := "u1",
    max := some 250, min := some (-250), unit := "km/h" }

/-- The exact rational one half, the value of the Python float `0.5`
(written as an explicit fraction because `Rat` division is irreducible). -/
def ratHalf : Rat := ⟨1, 2, by norm_num, by norm_num⟩

/-- The signal built from an `int8` node with author minimum `-5`. -/
def sigC1w : Signal :=
  { datatype := "int8", description := "d", nspace := ["A"],
    pintDimensionless := true, type := "sensor", uuid := "u",
    max := some 127, min := some (-5), unit := "dimensionless" }

end VSS

namespace VSS

/-! ### Helper lemmas -/

/-- Python `str.split` never yields an empty list of segments. -/
theorem splitDotsAux_ne_nil (l : List Char) : splitDotsAux l ≠ [] := by
  cases l with
  | nil => simp [splitDotsAux]
  | cons c rest =>
    simp only [splitDotsAux]
    split
    · simp
    · split <;> simp

theorem pySplit_ne_nil (s : String) : pySplit s ≠ [] := by
  simp only [pySplit, ne_eq, List.map_eq_nil_iff]
  exact splitDotsAux_ne_nil s.data

/-- `ratTrunc` is the identity on integer values. -/
theorem ratTrunc_intCast (n : Int) : ratTrunc (n : Rat) = (n : Rat) := by
  unfold ratTrunc
  split
  · rw [Int.floor_intCast]
  · rw [Int.ceil_intCast]

/-- The descent only ever appends freshly built dicts to the heap; every
pre-existing address keeps its contents. -/
theorem findSignalAux_heap_extends (reg : UnitReg) (h : Heap) :
    ∀ fuel a idx ns, ∃ ext, (findSignalAux reg h fuel a ns idx).2 = h ++ ext := by
  intro fuel
  induction fuel with
  | zero =>
    intro a idx ns
    exact ⟨[], by simp [findSignalAux]⟩
  | succ n ih =>
    intro a idx ns
    simp only [findSignalAux]
    repeat' split
    all_goals first
      | exact ih _ _ _
      | exact ⟨_, rfl⟩
      | exact ⟨[], by simp⟩

/-- Inversion for `postInit`: a successfully constructed signal carries the
lower-cased datatype and exactly the bounds produced by `deriveBounds`. -/
theorem postInit_ok_fields (reg : UnitReg) (dt0 desc ty uu : String)
    (df : Option PyVal) (en : Option (List String)) (mxA mnA : Option Rat)
    (un : String) (ns : List String) (s : Signal)
    (hok : postInit reg dt0 desc ty uu df en mxA mnA un ns = .ok s) :
    s.datatype = pyLower dt0 ∧ deriveBounds (pyLower dt0) mnA mxA = .ok (s.min, s.max) := by
  simp only [postInit] at hok
  repeat' split at hok
  any_goals solve | simp at hok
  injection hok with h
  subst h
  exact ⟨rfl, by assumption⟩

/-- Inversion for `mkSignal`: a success passes through `__post_init__` with
the node's raw field values. -/
theorem mkSignal_ok_postInit (reg : UnitReg) (nd : NodeH) (ns : List String)
    (s : Signal) (hok : mkSignal reg nd ns = .ok s) :
    ∃ dt0 desc ty uu, nd.datatype = some dt0 ∧
      postInit reg dt0 desc ty uu nd.default nd.enum nd.maxF nd.minF
        (nd.unitF.getD "dimensionless") ns = .ok s := by
  simp only [mkSignal] at hok
  repeat' split at hok
  any_goals solve | simp at hok
  exact ⟨_, _, _, _, by assumption, hok⟩

/-- For a numeric datatype the derived bounds are one-sidedly clamped:
the stored minimum is at least the natural low, the stored maximum at most
the natural high. -/
theorem deriveBounds_ok_numeric (dt : String) (mnA mxA mn mx : Option Rat)
    (low high : Rat)
    (hns : ¬ (dt = "string" ∨ dt = "boolean"))
    (hnb : naturalBounds dt = .ok (low, high))
    (hd : deriveBounds dt mnA mxA = .ok (mn, mx)) :
    (∃ m, mn = some m ∧ low ≤ m) ∧ (∃ M, mx = some M ∧ M ≤ high) := by
  unfold deriveBounds at hd
  rw [if_neg hns, hnb] at hd
  injection hd with h
  injection h with h1 h2
  subst h1
  subst h2
  constructor
  · cases mnA with
    | none => exact ⟨low, rfl, le_refl low⟩
    | some m0 => exact ⟨max m0 low, rfl, le_max_right m0 low⟩
  · cases mxA with
    | none => exact ⟨high, rfl, le_refl high⟩
    | some M0 => exact ⟨min M0 high, rfl, min_le_right M0 high⟩

/-- Truncation of a value squeezed between a nonnegative `z`'s floor and
`z` itself yields that floor. -/
theorem ratTrunc_of_floor_window (z w : Rat) (hz : 0 ≤ z)
    (h1 : (⌊z⌋ : Rat) ≤ w) (h2 : w ≤ z) : ratTrunc w = (⌊z⌋ : Rat) := by
  have hw0 : 0 ≤ w := le_trans (by exact_mod_cast Int.floor_nonneg.mpr hz) h1
  unfold ratTrunc
  rw [if_pos hw0]
  have hle : ⌊w⌋ ≤ ⌊z⌋ := Int.floor_mono h2
  have hge : ⌊z⌋ ≤ ⌊w⌋ := Int.le_floor.mpr h1
  exact_mod_cast congrArg (fun n : Int => (n : Rat)) (le_antisymm hle hge)

/-- Truncation of a value squeezed between a negative `z` and its ceiling
yields that ceiling. -/
theorem ratTrunc_of_ceil_window (z w : Rat) (hz : z < 0)
    (h1 : z ≤ w) (h2 : w ≤ (⌈z⌉ : Rat)) : ratTrunc w = (⌈z⌉ : Rat) := by
  have hcz : ⌈z⌉ ≤ 0 := Int.ceil_le.mpr (by exact_mod_cast hz.le)
  rcases lt_or_le w 0 with hw | hw
  · unfold ratTrunc
    rw [if_neg (not_le.mpr hw)]
    have hle : ⌈w⌉ ≤ ⌈z⌉ := Int.ceil_le.mpr h2
    have hge : ⌈z⌉ ≤ ⌈w⌉ := Int.ceil_mono h1
    exact_mod_cast congrArg (fun n : Int => (n : Rat)) (le_antisymm hle hge)
  · have hc0 : (⌈z⌉ : Rat) = 0 := le_antisymm (by exact_mod_cast hcz) (le_trans hw h2)
    have hw0 : w = 0 := le_antisymm (hc0 ▸ h2) hw
    rw [hw0, hc0]
    unfold ratTrunc
    simp

/-- Re-clamping the truncated clamp result reproduces it. -/
theorem ratTrunc_window_idem (m M y : Rat) :
    ratTrunc (max (min (ratTrunc (max (min y M) m)) M) m) = ratTrunc (max (min y M) m) := by
  set z := max (min y M) m with hzdef
  have hmz : m ≤ z := le_max_right _ _
  rcases le_or_lt 0 z with hz | hz
  · have hceq : ratTrunc z = (⌊z⌋ : Rat) := by unfold ratTrunc; rw [if_pos hz]
    rw [hceq]
    set c : Rat := (⌊z⌋ : Rat) with hcdef
    have hcz : c ≤ z := Int.floor_le z
    apply ratTrunc_of_floor_window z _ hz
    · rcases le_total m M with hmM | hMm
      · have hzM : z ≤ M := max_le (min_le_right _ _) hmM
        have hcM : c ≤ M := le_trans hcz hzM
        calc c = min c M := (min_eq_left hcM).symm
          _ ≤ max (min c M) m := le_max_left _ _
      · have hzm : z = m := max_eq_right (le_trans (min_le_right _ _) hMm)
        calc c ≤ z := hcz
          _ = m := hzm
          _ ≤ max (min c M) m := le_max_right _ _
    · exact max_le (le_trans (min_le_left _ _) hcz) hmz
  · have hceq : ratTrunc z = (⌈z⌉ : Rat) := by unfold ratTrunc; rw [if_neg (not_le.mpr hz)]
    rw [hceq]
    set c : Rat := (⌈z⌉ : Rat) with hcdef
    have hzc : z ≤ c := Int.le_ceil z
    apply ratTrunc_of_ceil_window z _ hz
    · rcases le_total m M with hmM | hMm
      · have hzM : z ≤ M := max_le (min_le_right _ _) hmM
        calc z ≤ min c M := le_min hzc hzM
          _ ≤ max (min c M) m := le_max_left _ _
      · have hzm : z = m := max_eq_right (le_trans (min_le_right _ _) hMm)
        calc z = m := hzm
          _ ≤ max (min c M) m := le_max_right _ _
    · exact max_le (min_le_left _ _) (le_trans hmz hzc)

/-- The pure clamp window is idempotent (also when `min > max`). -/
theorem clamp_window_idem (m M y : Rat) :
    max (min (max (min y M) m) M) m = max (min y M) m := by
  rcases le_total m M with h | h
  · have h1 : max (min y M) m ≤ M := max_le (min_le_right _ _) h
    have h2 : m ≤ max (min y M) m := le_max_right _ _
    rw [min_eq_left h1, max_eq_left h2]
  · have hy : max (min y M) m = m := max_eq_right (le_trans (min_le_right _ _) h)
    rw [hy, min_eq_right h, max_eq_right h]

/-- Truncation keeps a value inside an interval with integer endpoints. -/
theorem ratTrunc_range (a b : Int) (g : Rat) (h1 : (a : Rat) ≤ g) (h2 : g ≤ (b : Rat)) :
    (a : Rat) ≤ ratTrunc g ∧ ratTrunc g ≤ (b : Rat) := by
  unfold ratTrunc
  split
  · constructor
    · exact_mod_cast Int.le_floor.mpr h1
    · exact le_trans (Int.floor_le g) h2
  · constructor
    · exact le_trans h1 (Int.le_ceil g)
    · exact_mod_cast Int.ceil_le.mpr h2

/-! ### Claim theorems -/

/-- **C3** (counterexample). A legally constructed `int8` signal with the
author float minimum `0.5` truncates `clamp(0)` to `0`, which is *below*
the signal's own `min = 0.5`: clamp does not always land in `[min, max]`. -/
theorem C3_counterexample :
    ((mkSignal defaultReg
        { typeF := some "sensor", datatype := some "int8", description := some "d",
          uuid := some "u", minF := some ratHalf } ["A"]).bind
      (fun s => (s.clamp 0).map (fun c => (c, s.min, s.max)))) =
      .ok (0, some ratHalf, some 127)
    ∧ ¬ (ratHalf ≤ 0) :=
  ⟨rfl, by decide⟩

/-- **C3** (amended). `clamp` is idempotent on every signal and input on
which it succeeds; its result lies in `[min, max]` provided `min ≤ max`
and — for the integer datatypes, whose result is truncated — the two
bounds are integer-valued (the claim's unconditional containment fails for
fractional author bounds and for `min > max`, see the counterexample). -/
theorem C3_clamp_idempotent_and_ranged (s : Signal) (x c : Rat)
    (hc : s.clamp x = .ok c) :
    s.clamp c = .ok c ∧
    (∀ m M, s.min = some m → s.max = some M → m ≤ M →
      ((s.datatype = "float" ∨ s.datatype = "double") ∨
        ((∃ a : Int, m = (a : Rat)) ∧ (∃ b : Int, M = (b : Rat)))) →
      m ≤ c ∧ c ≤ M) := by
  unfold Signal.clamp clampVal at hc
  split at hc
  · simp at hc
  · rename_i hsb
    split at hc
    case _ M0 m0 heqM heqm =>
      injection hc with hc
      subst hc
      constructor
      · unfold Signal.clamp clampVal
        rw [if_neg hsb, heqM, heqm]
        refine congrArg Except.ok ?_
        by_cases hfd : s.datatype = "float" ∨ s.datatype = "double"
        · unfold pyConv
          rw [if_pos hfd, if_pos hfd]
          exact clamp_window_idem m0 M0 x
        · unfold pyConv
          rw [if_neg hfd, if_neg hfd]
          exact ratTrunc_window_idem m0 M0 x
      · intro m M hm hM hle hint
        rw [heqm] at hm
        injection hm with hm
        rw [heqM] at hM
        injection hM with hM
        subst hm
        subst hM
        have hg1 : m0 ≤ max (min x M0) m0 := le_max_right _ _
        have hg2 : max (min x M0) m0 ≤ M0 := max_le (min_le_right _ _) hle
        by_cases hfd : s.datatype = "float" ∨ s.datatype = "double"
        · unfold pyConv
          rw [if_pos hfd]
          exact ⟨hg1, hg2⟩
        · unfold pyConv
          rw [if_neg hfd]
          rcases hint with hfd' | ⟨⟨a, ha⟩, ⟨b, hb⟩⟩
          · exact absurd hfd' hfd
          · subst ha
            subst hb
            exact ratTrunc_range a b _ hg1 hg2
    case _ => simp at hc

/-- **C3** (witness): on the concrete `int32` signal, `clamp 300 = 250`,
re-clamping gives `250` again, and the result lies in `[-250, 250]`. -/
theorem C3_witness :
    speedSignal.clamp 300 = Except.ok 250 ∧ speedSignal.clamp 250 = Except.ok 250 ∧
    ((-250 : Rat) ≤ 250 ∧ (250 : Rat) ≤ 250) := by
  have h1 : speedSignal.clamp 300 = Except.ok 250 := rfl
  have h2 := C3_clamp_idempotent_and_ranged speedSignal 300 250 h1
  exact ⟨h1, h2.1, h2.2 (-250) 250 rfl rfl (by decide)
    (Or.inr ⟨⟨-250, by norm_num⟩, ⟨250, by norm_num⟩⟩)⟩

/-- **C1** (counterexample). With datatype `int8` and author-supplied
`min = 1000`, construction succeeds and the stored minimum is `1000`,
which lies outside the natural `int8` range `[-128, 127]`: the code
computes `max(author_min, low)` only, so an author bound above the natural
high escapes the range. -/
theorem C1_counterexample :
    (mkSignal defaultReg
      { typeF := some "sensor", datatype := some "int8", description := some "d",
        uuid := some "u", minF := some 1000 } ["A"]).map (fun s => (s.min, s.max)) =
      .ok (some 1000, some 127)
    ∧ naturalBounds "int8" = .ok (-128, 127)
    ∧ ¬ ((1000 : Rat) ≤ 127) :=
  ⟨rfl, rfl, by decide⟩

/-- **C1** (amended). For every successfully constructed signal with a
numeric datatype whose natural range is `[low, high]`, the stored bounds
satisfy the one-sided containment `low ≤ min` and `max ≤ high` (each
author bound is clamped toward the natural range on one side only; the
claim's two-sided containment fails, see the counterexample). -/
theorem C1_bounds_one_sided (reg : UnitReg) (nd : NodeH) (ns : List String)
    (s : Signal) (low high : Rat)
    (hok : mkSignal reg nd ns = .ok s)
    (hns : ¬ (s.datatype = "string" ∨ s.datatype = "boolean"))
    (hnb : naturalBounds s.datatype = .ok (low, high)) :
    (∃ m, s.min = some m ∧ low ≤ m) ∧ (∃ M, s.max = some M ∧ M ≤ high) := by
  obtain ⟨dt0, desc, ty, uu, hdt, hpi⟩ := mkSignal_ok_postInit reg nd ns s hok
  obtain ⟨hsd, hdb⟩ := postInit_ok_fields reg dt0 desc ty uu nd.default nd.enum
    nd.maxF nd.minF (nd.unitF.getD "dimensionless") ns s hpi
  rw [← hsd] at hdb
  exact deriveBounds_ok_numeric s.datatype nd.minF nd.maxF s.min s.max low high hns hnb hdb

/-- **C1** (witness for the amended theorem): an `int8` signal with author
minimum `-5` keeps `min = -5 ≥ -128` and derives `max = 127 ≤ 127`. -/
theorem C1_witness :
    (∃ m, sigC1w.min = some m ∧ (-128 : Rat) ≤ m) ∧
    (∃ M, sigC1w.max = some M ∧ M ≤ (127 : Rat)) :=
  C1_bounds_one_sided defaultReg
    { typeF := some "sensor", datatype := some "int8", description := some "d",
      uuid := some "u", minF := some (-5) } ["A"] sigC1w (-128) 127
    rfl (by decide) rfl

/-- **C2** (code_bug evidence). Constructing a signal whose datatype is
`boolean` with the boolean default `True` and every other field valid fails:
Python's `bool` is a subclass of `int`, so the clause
`isinstance(default, int) and 'int' not in datatype` fires before the
dedicated bool/boolean clause can accept it, raising the type-mismatch
`ValueError` — the claim (and the code's own third `isinstance` clause and
the dataclass field typing) expect this construction to succeed. -/
theorem C2_bool_default_rejected :
    mkSignal defaultReg
      { typeF := some "sensor", datatype := some "boolean",
        description := some "d", uuid := some "u",
        default := some (.pbool true) } ["A"] =
      .error (.valueError
        "default value type <class 'bool'> does not match expected datatype boolean") := by
  rfl

/-- **C4** (counterexample). An outer instances list mixing a string and a
list sibling does *not* always fail: when the string is a well-formed range
it is expanded into a list by the comprehension, after which all elements
are lists and matching proceeds axis by axis — here
`['Row[1,2]', ['A', 'B']]` consumes the two namespace segments
`Row1`, `A` and succeeds. -/
theorem C4_counterexample :
    parseInstances (.list [.str "Row[1,2]", .list ["A", "B"]])
      ["X", "Row1", "A"] 1 = .ok 3 := by
  rfl

/-- **C4** (amended). A mixed outer instances list fails with a
specification error whenever the per-element range-expansion pass fails
(some string sibling is not a well-formed non-empty range): the
comprehension's failure is swallowed, the list stays mixed, and the
`malformed instances` spec error is raised. -/
theorem C4_mixed_unexpandable_is_spec_error (l : List InstElem)
    (ns : List String) (idx : Nat) (hidx : idx ≤ ns.length)
    (hs : ∃ s, InstElem.str s ∈ l) (hl : ∃ il, InstElem.list il ∈ l)
    (hexp : ∃ e, expandList l ns idx = .error e) :
    ∃ msg, parseInstances (.list l) ns idx = .error (.specError msg) := by
  obtain ⟨s, hsmem⟩ := hs
  obtain ⟨il, hlmem⟩ := hl
  obtain ⟨e, hexp⟩ := hexp
  have hne : l ≠ [] := by
    intro h
    subst h
    exact absurd hsmem (List.not_mem_nil _)
  have hallstr : l.all InstElem.isStr = false := by
    rw [List.all_eq_false]
    exact ⟨.list il, hlmem, by simp [InstElem.isStr]⟩
  have halllist : l.all InstElem.isList = false := by
    rw [List.all_eq_false]
    exact ⟨.str s, hsmem, by simp [InstElem.isList]⟩
  refine ⟨"malformed instances " ++ mixedRepr l ++ " for " ++ sq (dotJoin (ns.take idx)), ?_⟩
  simp only [parseInstances, hidx, if_true]
  rw [if_neg hne]
  simp only [hexp, hallstr, halllist]
  simp

/-- **C4** (witness for the amended theorem): the mixed list
`['foo', ['A']]` whose string sibling is not a range fails with a spec
error. -/
theorem C4_witness :
    ∃ msg, parseInstances (.list [.str "foo", .list ["A"]]) ["X", "foo"] 1 =
      .error (.specError msg) :=
  C4_mixed_unexpandable_is_spec_error [.str "foo", .list ["A"]] ["X", "foo"] 1
    (by decide) ⟨"foo", by simp⟩ ⟨["A"], by simp⟩
    ⟨.specError "malformed instance 'foo' on 'X'", by rfl⟩

/-- **C8** (confirmed). An empty instances list is always a
`VSSSpecError` (tree-authoring defect), while a namespace segment that is
not a member of the instance set is a `VSSBranchError` (navigation
failure); the two error kinds are distinct constructors and are never
conflated. -/
theorem C8_empty_vs_mismatch (ns : List String) (idx : Nat)
    (hidx : idx ≤ ns.length) (insts : List String) (nm : String)
    (hnm : ns[idx]? = some nm) (hmem : nm ∉ insts) :
    (∃ m, parseInstances (.list []) ns idx = .error (.specError m)) ∧
    (∃ m, consumeInstance insts ns idx = .error (.branchError m)) ∧
    (∀ m m', PyErr.specError m ≠ PyErr.branchError m') := by
  refine ⟨⟨"empty instances array on " ++ sq (dotJoin (ns.take idx)), ?_⟩,
          ⟨"illegal instance of " ++ sq (dotJoin (ns.take idx)) ++ ", got " ++
            sq nm ++ " but must be one of " ++ listRepr insts, ?_⟩,
          fun m m' h => by cases h⟩
  · simp only [parseInstances, hidx, if_true]
  · simp [consumeInstance, hidx, hnm, hmem]

/-- **C8** (witness): at the concrete namespace `['X', 'Row7']` with
instance set `['Row1']`, the empty list is a spec error and the `Row7`
mismatch is a branch error. -/
theorem C8_witness :
    (∃ m, parseInstances (.list []) ["X", "Row7"] 1 = .error (.specError m)) ∧
    (∃ m, consumeInstance ["Row1"] ["X", "Row7"] 1 = .error (.branchError m)) ∧
    (∀ m m', PyErr.specError m ≠ PyErr.branchError m') :=
  C8_empty_vs_mismatch ["X", "Row7"] 1 (by decide) ["Row1"] "Row7" rfl (by simp)

/-- **C5** (confirmed). When the traversal index reaches the namespace
length (after any instance consumption), resolution fails with the
`is a branch, not a signal` branch error exactly when the node's `type`
field is absent or `'branch'`; otherwise a `Signal` is constructed from
the node's raw fields with the `instances` key stripped and the full
namespace, and a `ValueError` or `TypeError` from that construction is
wrapped as the spec error naming the failing path. -/
theorem C5_leaf_resolution (reg : UnitReg) (h : Heap) (fuel a : Nat)
    (ns : List String) (idx : Nat) (nd : NodeH)
    (hidx : idx ≤ ns.length)
    (hnd : h.get? a = some nd)
    (hstep : instStep nd ns idx = .ok ns.length) :
    findSignalAux reg h (fuel + 1) a ns idx =
      (if nd.typeF.getD "branch" = "branch" then
        (.error (.branchError ("node " ++ sq (dotJoin ns) ++ " is a branch, not a signal")), h)
      else
        match mkSignal reg { nd with instancesF := none } ns with
        | .ok s => (.ok s, if nd.instancesF.isSome then h ++ [{ nd with instancesF := none }] else h)
        | .error (.valueError _) =>
          (.error (.specError ("malformed sensor specification for " ++ sq (dotJoin ns))),
           if nd.instancesF.isSome then h ++ [{ nd with instancesF := none }] else h)
        | .error (.typeError _) =>
          (.error (.specError ("malformed sensor specification for " ++ sq (dotJoin ns))),
           if nd.instancesF.isSome then h ++ [{ nd with instancesF := none }] else h)
        | .error e => (.error e, if nd.instancesF.isSome then h ++ [{ nd with instancesF := none }] else h)) := by
  obtain ⟨io, t, c, d1, d2, u, df, en, mx, mn, un⟩ := nd
  simp only [findSignalAux, hidx, if_true, hnd, hstep]
  by_cases hb : t.getD "branch" = "branch"
  · simp [hb]
  · simp only [hb, if_false, List.take_length]
    cases io with
    | none =>
      rcases hms : mkSignal reg ⟨none, t, c, d1, d2, u, df, en, mx, mn, un⟩ ns with e | s
      · cases e <;> simp [hms]
      · simp [hms]
    | some i =>
      rcases hms : mkSignal reg ⟨none, t, c, d1, d2, u, df, en, mx, mn, un⟩ ns with e | s
      · cases e <;> simp [hms]
      · simp [hms]

/-- **C5** (witness): the concrete `int32` leaf resolves to the expected
signal when the index has reached the namespace length. -/
theorem C5_witness :
    findSignalAux defaultReg [speedLeaf] 1 0 ["Vehicle", "AverageSpeed"] 2 =
      (Except.ok speedSignal, [speedLeaf]) :=
  (C5_leaf_resolution defaultReg [speedLeaf] 0 0 ["Vehicle", "AverageSpeed"] 2 speedLeaf
    (by decide) rfl rfl).trans (by rfl)

/-- **C6** (confirmed). Resolving a non-empty dot-delimited string with no
empty segments gives exactly the same result — signal, error and heap — as
resolving the tuple obtained by splitting it on `'.'`, against the same
tree and registry. -/
theorem C6_string_tuple_equivalence (reg : UnitReg) (s : String)
    (spec : List (String × HChild)) (h : Heap)
    (hne : s ≠ "") (hseg : ∀ seg ∈ pySplit s, seg ≠ "") :
    findSignal reg (.str s) spec h = findSignal reg (.tup (pySplit s)) spec h := by
  have hlen : nameLen (.str s) ≠ 0 := by
    simp only [nameLen, ne_eq, List.length_eq_zero]
    intro hdata
    apply hne
    cases s
    simp_all
  have hlen' : nameLen (.tup (pySplit s)) ≠ 0 := by
    simp only [nameLen, ne_eq, List.length_eq_zero]
    exact pySplit_ne_nil s
  simp only [findSignal, nsOf, if_neg hlen, if_neg hlen']

/-- **C6** (witness): the string and tuple forms of
`Vehicle.AverageSpeed` resolve identically against the concrete heap. -/
theorem C6_witness :
    findSignal defaultReg (.str "Vehicle.AverageSpeed") speedSpec speedHeap =
      findSignal defaultReg (.tup (pySplit "Vehicle.AverageSpeed")) speedSpec speedHeap :=
  C6_string_tuple_equivalence defaultReg "Vehicle.AverageSpeed" speedSpec speedHeap
    (by decide) (by decide)

/-- **C7** (confirmed). An empty name, or any empty segment after
splitting, raises the argument-validation `ValueError` before any tree
lookup: the result is the same for every supplied tree and heap, and the
heap is returned untouched. -/
theorem C7_empty_name_value_error (reg : UnitReg) (nameA : NameArg)
    (spec spec' : List (String × HChild)) (h h' : Heap)
    (hbad : nameLen nameA = 0 ∨ (nsOf nameA).any (fun k => k.length = 0) = true) :
    findSignal reg nameA spec h =
      (.error (.valueError (if nameLen nameA = 0 then
        "namespace must contain at least one key"
      else "namespace cannot contain an empty key")), h) ∧
    (findSignal reg nameA spec h).1 = (findSignal reg nameA spec' h').1 := by
  by_cases hz : nameLen nameA = 0
  · simp only [findSignal, hz, if_true, if_pos hz]
    simp
  · have hany : (nsOf nameA).any (fun k => k.length = 0) = true := hbad.resolve_left hz
    simp only [findSignal, hz, if_false, if_neg hz, hany, if_true]
    simp

/-- **C7** (witness): `'Foo..Bar'` fails with the empty-segment
`ValueError` independently of the tree. -/
theorem C7_witness :
    findSignal defaultReg (.str "Foo..Bar") speedSpec speedHeap =
      (.error (.valueError (if nameLen (.str "Foo..Bar") = 0 then
        "namespace must contain at least one key"
      else "namespace cannot contain an empty key")), speedHeap) ∧
    (findSignal defaultReg (.str "Foo..Bar") speedSpec speedHeap).1 =
      (findSignal defaultReg (.str "Foo..Bar") [] []).1 :=
  C7_empty_name_value_error defaultReg (.str "Foo..Bar") speedSpec [] speedHeap []
    (Or.inr (by decide))

/-- **C9** (confirmed). Resolution never mutates the supplied tree: the
returned heap is the input heap extended by freshly allocated dicts only
(the stripped leaf mapping of line 266), so every pre-existing node is
unchanged — deep equality of the input tree holds after any call,
successful or failing, and hence after any sequence of calls. -/
theorem C9_resolution_never_mutates_tree (reg : UnitReg) (nameA : NameArg)
    (spec : List (String × HChild)) (h : Heap) :
    ∃ ext, (findSignal reg nameA spec h).2 = h ++ ext := by
  by_cases h1 : nameLen nameA = 0
  · exact ⟨[], by simp [findSignal, h1]⟩
  by_cases h2 : (nsOf nameA).any (fun k => k.length = 0) = true
  · exact ⟨[], by simp [findSignal, h1, h2]⟩
  rcases hh : (nsOf nameA).head? with _ | key
  · exact ⟨[], by simp [findSignal, h1, h2, hh]⟩
  rcases hl : List.lookup key spec with _ | child
  · exact ⟨[], by simp [findSignal, h1, h2, hh, hl]⟩
  cases child with
  | nonMap => exact ⟨[], by simp [findSignal, h1, h2, hh, hl]⟩
  | ref a =>
    obtain ⟨ext, hx⟩ := findSignalAux_heap_extends reg h ((nsOf nameA).length + 1) a 1 (nsOf nameA)
    refine ⟨ext, ?_⟩
    simp only [findSignal, h1, h2, hh, hl]
    rcases hq : findSignalAux reg h ((nsOf nameA).length + 1) a (nsOf nameA) 1 with ⟨e, h2'⟩
    rw [hq] at hx
    rcases e with err | s
    · cases err <;> simpa using hx
    · simpa using hx

/-- **C10** (confirmed). A well-typed `find_signal` call on an explicitly
supplied tree in which descent reaches a non-mapping child: the
`typechecked` decorator raises a `TypeError`, the `except TypeError`
handler at line 331 evaluates the unbound name `e`, and the call surfaces
a `NameError` — not a specification error. -/
theorem C10_nameError_on_nonmapping_child :
    findSignal defaultReg (.tup ["A", "B"])
      [("A", HChild.ref 0)] [{ children := some [("B", HChild.nonMap)] }] =
      (.error (.nameError "name e is not defined"),
       [({ children := some [("B", HChild.nonMap)] } : NodeH)]) := by
  rfl

end VSS
